import Mathlib

set_option maxRecDepth 16000

/-!
Verification of the multi-source ticket-scraper against its design notes.

The Go sources are embedded shallowly:

* pure string routines (`strings.ToLower`, `strings.TrimSpace`,
  `strings.Contains`, `strings.Split`, `strings.Title`, `strings.Fields`)
  become functions on `List Char`; ASCII semantics are modelled, which
  coincides with Go on every string appearing in the repository and in the
  claims;
* `time.Time` values become `GoTime` records (year, month, day, hour,
  minute) compared lexicographically, which agrees with Go's
  `After`/`Before`/`Equal` on wall-clock values;
* `time.Parse` is embedded for exactly the nine layout strings used by
  `parseEventDate` plus the `"2006-01-02"` layout used by the HTTP handler,
  following Go's parser: fixed-width numeric fields, case-insensitive
  month/weekday names, case-sensitive lower-case "pm"/"am", whole-string
  consumption, and the final day-of-month range check;
* `time.Now()` is threaded through as an explicit `now : GoTime`
  (resp. an abstract timestamp `Nat` where only stored, never inspected);
* network fetching is out of scope (spec section 1): each scraper takes an
  `Option (List _)` fetch outcome - `none` is a failed visit/render,
  `some elems` a fetched page whose selector matches are the listed
  elements, each element carrying the text/attribute fields the Go code
  extracts from it;
* the `go-edlib` similarity scores (float32) are computed in exact
  rational arithmetic, represented as unnormalized numerator/denominator
  pairs (`Frac`) with cross-multiplication comparisons, with the standard
  Levenshtein-ratio, Jaro and Jaro-Winkler (scaling 0.1, prefix cap 4)
  definitions;
* Go map iteration (`findBestSimilarTeam`) is modelled by iterating the
  alias table in source order; every fact proved below about the fuzzy
  matcher is insensitive to the iteration order (either no alias reaches
  the threshold, or the strict maximum is unique).
-/

/-! ## ASCII character helpers -/

/-- ASCII lower-casing of one character (`strings.ToLower` restricted to
the ASCII range; all characters compared anywhere below are ASCII). -/
def lowerChar (c : Char) : Char :=
  if 'A' ≤ c ∧ c ≤ 'Z' then Char.ofNat (c.toNat + 32) else c

/-- ASCII upper-casing of one character (`unicode.ToTitle` on ASCII). -/
def upperChar (c : Char) : Char :=
  if 'a' ≤ c ∧ c ≤ 'z' then Char.ofNat (c.toNat - 32) else c

/-- Word character for Go's regexp `\b` boundary: `[0-9A-Za-z_]` (Go's
word boundary is ASCII-only). -/
def wordChar (c : Char) : Bool :=
  c.isAlpha || c.isDigit || c = '_'

/-- White space as recognized by `strings.TrimSpace`/`strings.Fields`
(ASCII part of `unicode.IsSpace`). -/
def goSpace (c : Char) : Bool :=
  c = ' ' || c = '\t' || c = '\n' || c = '\x0b' || c = '\x0c' || c = '\r'

/-- Separator for `strings.Title` word boundaries: on ASCII everything
except letters, digits and underscore; non-ASCII letters are not
separators. -/
def titleSep (c : Char) : Bool :=
  if c.toNat ≤ 0x7f then !(c.isAlpha || c.isDigit || c = '_') else false

/-! ## List-of-characters utilities -/

/-- `strings.TrimSpace`. -/
def trimL (l : List Char) : List Char :=
  ((l.dropWhile goSpace).reverse.dropWhile goSpace).reverse

def lowerL (l : List Char) : List Char := l.map lowerChar

/-- Does `hay` contain `sub` as a contiguous substring
(`strings.Contains hay sub`)? -/
def containsL (hay sub : List Char) : Bool :=
  match hay with
  | [] => sub.isEmpty
  | _ :: rest => sub.isPrefixOf hay || containsL rest sub

/-- `strings.HasPrefix`. -/
def hasPfx (pfx l : List Char) : Bool := pfx.isPrefixOf l

/-- `strings.Title` (ASCII): upper-case every character that follows a
separator. -/
def titleGo (l : List Char) (prevSep : Bool := true) : List Char :=
  match l with
  | [] => []
  | c :: rest => (if prevSep then upperChar c else c) :: titleGo rest (titleSep c)

/-- `strings.Fields`: split around runs of white space. -/
def fieldsGo (l : List Char) (cur : List Char := []) : List (List Char) :=
  match l with
  | [] => if cur.isEmpty then [] else [cur.reverse]
  | c :: rest =>
      if goSpace c then
        if cur.isEmpty then fieldsGo rest [] else cur.reverse :: fieldsGo rest []
      else fieldsGo rest (c :: cur)

/-! ## Data model (`scraper/types.go`) -/

/-- `TicketEvent`: one scraped event.  The capture timestamp of a result
is kept abstract (a `Nat` tag) since no operation ever inspects it. -/
structure TicketEvent where
  dateTime : String
  event : String
  link : String
  source : String
deriving DecidableEq, Repr

/-- `ScrapingResult`: events plus metadata; `total` is the derived count
field written explicitly by every Go constructor site. -/
structure ScrapingResult where
  events : List TicketEvent
  total : Nat
  timestamp : Nat
  sourceURL : String
  source : String
deriving DecidableEq, Repr

/-! ## Go `time` embedding -/

/-- The components of a Go wall-clock time relevant to this program
(the nine layouts carry at most year, month, day, hour, minute). -/
structure GoTime where
  year : Nat
  month : Nat
  day : Nat
  hour : Nat
  minute : Nat
deriving DecidableEq, Repr

/-- `time.Time.Before` on wall-clock values: lexicographic comparison. -/
def timeBefore (a b : GoTime) : Bool :=
  a.year < b.year ||
    (a.year = b.year && (a.month < b.month ||
      (a.month = b.month && (a.day < b.day ||
        (a.day = b.day && (a.hour < b.hour ||
          (a.hour = b.hour && a.minute < b.minute)))))))

/-- `time.Time.After`. -/
def timeAfter (a b : GoTime) : Bool := timeBefore b a

def isLeapYear (y : Nat) : Bool := y % 4 = 0 && (y % 100 ≠ 0 || y % 400 = 0)

/-- `daysIn(month, year)` from the Go time package. -/
def daysInMonth (m y : Nat) : Nat :=
  if m = 2 then (if isLeapYear y then 29 else 28)
  else if m = 4 ∨ m = 6 ∨ m = 9 ∨ m = 11 then 30
  else 31

/-- Date normalization performed by `time.Date` (reached through
`AddDate`): a day falling past the end of its month rolls into the next
month.  On every value reachable here at most one roll is possible
(Feb 29 of the layout-default leap year 0 moving to a non-leap year). -/
def normDate (t : GoTime) : GoTime :=
  if t.day > daysInMonth t.month t.year then
    { t with month := t.month + 1, day := t.day - daysInMonth t.month t.year }
  else t

/-! ## Go `time.Parse` for the layouts used by the repository -/

def digitVal (c : Char) : Option Nat :=
  if c.isDigit then some (c.toNat - 48) else none

/-- Fixed two-digit numeric field (`02`, `04`, `01` layouts). -/
def parse2 (l : List Char) : Option (Nat × List Char) :=
  match l with
  | a :: b :: rest => do
      let x ← digitVal a
      let y ← digitVal b
      pure (10 * x + y, rest)
  | _ => none

/-- One-or-two-digit numeric field (`3` layout): Go's `getnum` with
`fixed = false` consumes a second digit when present. -/
def parse12 (l : List Char) : Option (Nat × List Char) :=
  match l with
  | a :: rest => do
      let x ← digitVal a
      match rest with
      | b :: rest2 =>
          match digitVal b with
          | some y => pure (10 * x + y, rest2)
          | none => pure (x, rest)
      | [] => pure (x, [])
  | [] => none

/-- Fixed four-digit year (`2006` layout). -/
def parse4 (l : List Char) : Option (Nat × List Char) :=
  match l with
  | a :: b :: c :: d :: rest => do
      let w ← digitVal a
      let x ← digitVal b
      let y ← digitVal c
      let z ← digitVal d
      pure (1000 * w + 100 * x + 10 * y + z, rest)
  | _ => none

/-- Case-insensitive removal of a fixed name, as Go's `lookup`/`match`
does for month and weekday names. -/
def dropNameCI (pat : List Char) (l : List Char) : Option (List Char) :=
  match pat, l with
  | [], rest => some rest
  | _ :: _, [] => none
  | p :: ps, c :: cs => if lowerChar p = lowerChar c then dropNameCI ps cs else none

def monthNames : List (List Char) :=
  ["Jan".data, "Feb".data, "Mar".data, "Apr".data, "May".data, "Jun".data,
   "Jul".data, "Aug".data, "Sep".data, "Oct".data, "Nov".data, "Dec".data]

def dayNames : List (List Char) :=
  ["Sun".data, "Mon".data, "Tue".data, "Wed".data, "Thu".data, "Fri".data, "Sat".data]

/-- Abbreviated month name (`Jan` layout): first table entry matching a
prefix of the input, case-insensitively; yields the month number. -/
def parseMonthName (l : List Char) : Option (Nat × List Char) :=
  go monthNames 1
where
  go : List (List Char) → Nat → Option (Nat × List Char)
    | [], _ => none
    | n :: ns, i =>
        match dropNameCI n l with
        | some rest => some (i, rest)
        | none => go ns (i + 1)

/-- Abbreviated weekday name (`Mon` layout); the parsed weekday is not
cross-checked against the date, matching Go. -/
def parseDayName (l : List Char) : Option (List Char) :=
  go dayNames
where
  go : List (List Char) → Option (List Char)
    | [] => none
    | n :: ns =>
        match dropNameCI n l with
        | some rest => some rest
        | none => go ns

def parseLit (c : Char) (l : List Char) : Option (List Char) :=
  match l with
  | x :: rest => if x = c then some rest else none
  | [] => none

/-- Lower-case meridiem (`pm` layout): Go accepts exactly `"pm"` or
`"am"`, case-sensitively. -/
def parseAmPm (l : List Char) : Option (Bool × List Char) :=
  match l with
  | 'p' :: 'm' :: rest => some (true, rest)
  | 'a' :: 'm' :: rest => some (false, rest)
  | _ => none

/-- Go's 12-hour clock adjustment after parsing with `pm` set. -/
def applyAmPm (pm : Bool) (h : Nat) : Nat :=
  if pm then (if h < 12 then h + 12 else h)
  else (if h = 12 then 0 else h)

/-- Trailing `" 3:04pm"` part shared by the first two layouts; enforces
Go's hour (0..12 before meridiem adjustment) and minute ranges. -/
def parseClock (l : List Char) : Option (Nat × Nat × List Char) := do
  let (h, l) ← parse12 l
  if h > 12 then none else
  let l ← parseLit ':' l
  let (mi, l) ← parse2 l
  if mi ≥ 60 then none else
  let (pm, l) ← parseAmPm l
  pure (applyAmPm pm h, mi, l)

/-- Final whole-string and day-of-month checks shared by every layout;
fields left unset by a layout take Go's parse defaults (year 0,
January 1, midnight). -/
def finishDate (year month day hour minute : Nat) (rest : List Char) : Option GoTime :=
  if rest = [] ∧ 1 ≤ day ∧ day ≤ daysInMonth month year ∧ 1 ≤ month ∧ month ≤ 12 then
    some ⟨year, month, day, hour, minute⟩
  else none

/-- Layout `"02 Jan Mon 3:04pm"`. -/
def fmtDayMonWkClock (l : List Char) : Option GoTime := do
  let (d, l) ← parse2 l
  let l ← parseLit ' ' l
  let (mo, l) ← parseMonthName l
  let l ← parseLit ' ' l
  let l ← parseDayName l
  let l ← parseLit ' ' l
  let (h, mi, l) ← parseClock l
  finishDate 0 mo d h mi l

/-- Layout `"Jan 02 Mon 3:04pm"`. -/
def fmtMonDayWkClock (l : List Char) : Option GoTime := do
  let (mo, l) ← parseMonthName l
  let l ← parseLit ' ' l
  let (d, l) ← parse2 l
  let l ← parseLit ' ' l
  let l ← parseDayName l
  let l ← parseLit ' ' l
  let (h, mi, l) ← parseClock l
  finishDate 0 mo d h mi l

/-- Layout `"02 Jan 2006"`. -/
def fmtDayMonYear (l : List Char) : Option GoTime := do
  let (d, l) ← parse2 l
  let l ← parseLit ' ' l
  let (mo, l) ← parseMonthName l
  let l ← parseLit ' ' l
  let (y, l) ← parse4 l
  finishDate y mo d 0 0 l

/-- Layout `"Jan 02 2006"`. -/
def fmtMonDayYear (l : List Char) : Option GoTime := do
  let (mo, l) ← parseMonthName l
  let l ← parseLit ' ' l
  let (d, l) ← parse2 l
  let l ← parseLit ' ' l
  let (y, l) ← parse4 l
  finishDate y mo d 0 0 l

/-- Layout `"02 Jan"`. -/
def fmtDayMon (l : List Char) : Option GoTime := do
  let (d, l) ← parse2 l
  let l ← parseLit ' ' l
  let (mo, l) ← parseMonthName l
  finishDate 0 mo d 0 0 l

/-- Layout `"Jan 02"`. -/
def fmtMonDay (l : List Char) : Option GoTime := do
  let (mo, l) ← parseMonthName l
  let l ← parseLit ' ' l
  let (d, l) ← parse2 l
  finishDate 0 mo d 0 0 l

/-- Layout `"2006-01-02"`. -/
def fmtISO (l : List Char) : Option GoTime := do
  let (y, l) ← parse4 l
  let l ← parseLit '-' l
  let (mo, l) ← parse2 l
  let l ← parseLit '-' l
  let (d, l) ← parse2 l
  finishDate y mo d 0 0 l

/-- Layout `"02/01/2006"`. -/
def fmtDMYSlash (l : List Char) : Option GoTime := do
  let (d, l) ← parse2 l
  let l ← parseLit '/' l
  let (mo, l) ← parse2 l
  let l ← parseLit '/' l
  let (y, l) ← parse4 l
  finishDate y mo d 0 0 l

/-- Layout `"01/02/2006"`. -/
def fmtMDYSlash (l : List Char) : Option GoTime := do
  let (mo, l) ← parse2 l
  let l ← parseLit '/' l
  let (d, l) ← parse2 l
  let l ← parseLit '/' l
  let (y, l) ← parse4 l
  finishDate y mo d 0 0 l

/-- The ordered format list of `parseEventDate` (formatter.go). -/
def goFormats : List (List Char → Option GoTime) :=
  [fmtDayMonWkClock, fmtMonDayWkClock, fmtDayMonYear, fmtMonDayYear,
   fmtDayMon, fmtMonDay, fmtISO, fmtDMYSlash, fmtMDYSlash]

/-- The formats whose layout omits a year. -/
def yearlessFormats : List (List Char → Option GoTime) :=
  [fmtDayMonWkClock, fmtMonDayWkClock, fmtDayMon, fmtMonDay]

/-- Has the parsed month/day already passed in the current year?  This is
exactly the condition of the year-inference branch in `parseEventDate`. -/
def monthDayPassed (now t : GoTime) : Bool :=
  t.month < now.month || (t.month = now.month && t.day < now.day)

/-- Year inference of `parseEventDate`: a parse whose year is the layout
default 0 is shifted (via `AddDate`, hence `normDate`) to the current
year, or to the next year when the month/day already passed. -/
def adjustYear (now t : GoTime) : GoTime :=
  if t.year = 0 then
    normDate { t with year := if monthDayPassed now t then now.year + 1 else now.year }
  else t

/-- The `for _, format := range formats` loop of `parseEventDate`. -/
def tryFormats (fs : List (List Char → Option GoTime)) (now : GoTime) (l : List Char) :
    Option GoTime :=
  match fs with
  | [] => none
  | f :: rest =>
      match f l with
      | some t => some (adjustYear now t)
      | none => tryFormats rest now l

/-- `parseEventDate` (formatter.go): first matching layout, then year
inference; `none` models the error return (whose accompanying
`time.Now()` value is never used by any caller). -/
def parseEventDate (now : GoTime) (s : String) : Option GoTime :=
  tryFormats goFormats now s.data

/-! ## Filters (`scraper/formatter.go`) -/

/-- The match test of `FilterByKeyword`: case-insensitive substring of
event name, date string or source. -/
def keywordMatches (kwLower : List Char) (e : TicketEvent) : Bool :=
  containsL (lowerL e.event.data) kwLower ||
  containsL (lowerL e.dateTime.data) kwLower ||
  containsL (lowerL e.source.data) kwLower

/-- `FilterByKeyword`: empty keyword returns the receiver unchanged;
otherwise the matching events are collected by the append loop and
`total` is recomputed. -/
def FilterByKeyword (r : ScrapingResult) (keyword : String) : ScrapingResult :=
  if keyword = "" then r
  else
    let kl := lowerL keyword.data
    let evs := r.events.foldl
      (fun acc e => if keywordMatches kl e then acc ++ [e] else acc) []
    { events := evs, total := evs.length, timestamp := r.timestamp,
      sourceURL := r.sourceURL, source := r.source }

/-- The per-event decision of `FilterByDate`: an unparseable date is kept;
a parsed date is kept when inside the inclusive range. -/
def dateKeeps (now startDate endDate : GoTime) (e : TicketEvent) : Bool :=
  match parseEventDate now e.dateTime with
  | none => true
  | some d =>
      (timeAfter d startDate || d = startDate) && (timeBefore d endDate || d = endDate)

/-- `FilterByDate` (formatter.go); `now` is the `time.Now()` consulted by
the embedded `parseEventDate` calls. -/
def FilterByDate (now : GoTime) (r : ScrapingResult) (startDate endDate : GoTime) :
    ScrapingResult :=
  let evs := r.events.foldl
    (fun acc e => if dateKeeps now startDate endDate e then acc ++ [e] else acc) []
  { events := evs, total := evs.length, timestamp := r.timestamp,
    sourceURL := r.sourceURL, source := r.source }

/-! ## Team name normalizer (TeamNameNormalizer) -/

/-- `getStandardTeamMappings`, in source order; Go map keys are unique so
association-list lookup agrees with map indexing. -/
def teamMappings : List (String × String) :=
  [("real madrid", "Real Madrid"),
   ("real madrid cf", "Real Madrid"),
   ("real madrid club de fútbol", "Real Madrid"),
   ("rm", "Real Madrid"),
   ("madrid", "Real Madrid"),
   ("barcelona", "Barcelona"),
   ("fc barcelona", "Barcelona"),
   ("barça", "Barcelona"),
   ("barca", "Barcelona"),
   ("fcb", "Barcelona"),
   ("atletico madrid", "Atlético Madrid"),
   ("atletico de madrid", "Atlético Madrid"),
   ("atleti", "Atlético Madrid"),
   ("atm", "Atlético Madrid"),
   ("manchester united", "Manchester United"),
   ("man utd", "Manchester United"),
   ("manchester utd", "Manchester United"),
   ("man u", "Manchester United"),
   ("manchester united fc", "Manchester United"),
   ("liverpool", "Liverpool"),
   ("liverpool fc", "Liverpool"),
   ("lfc", "Liverpool"),
   ("juventus", "Juventus"),
   ("juventus fc", "Juventus"),
   ("juve", "Juventus"),
   ("villarreal", "Villarreal"),
   ("villarreal cf", "Villarreal"),
   ("getafe", "Getafe"),
   ("getafe cf", "Getafe"),
   ("valencia", "Valencia"),
   ("valencia cf", "Valencia"),
   ("sevilla", "Sevilla"),
   ("sevilla fc", "Sevilla"),
   ("athletic bilbao", "Athletic Bilbao"),
   ("athletic club", "Athletic Bilbao"),
   ("real betis", "Real Betis"),
   ("real sociedad", "Real Sociedad"),
   ("rayo vallecano", "Rayo Vallecano"),
   ("elche", "Elche"),
   ("elche cf", "Elche"),
   ("girona", "Girona"),
   ("girona fc", "Girona"),
   ("celta de vigo", "Celta de Vigo"),
   ("celta vigo", "Celta de Vigo"),
   ("rc celta de vigo", "Celta de Vigo"),
   ("deportivo alaves", "Deportivo Alavés"),
   ("alaves", "Deportivo Alavés"),
   ("ca osasuna", "CA Osasuna"),
   ("osasuna", "CA Osasuna"),
   ("levante ud", "Levante UD"),
   ("levante", "Levante UD"),
   ("mallorca", "Mallorca"),
   ("rcd mallorca", "Mallorca"),
   ("rcd espanyol", "RCD Espanyol"),
   ("espanyol", "RCD Espanyol"),
   ("oviedo", "Oviedo"),
   ("real oviedo", "Oviedo"),
   ("manchester city", "Manchester City"),
   ("manchester city fc", "Manchester City"),
   ("man city", "Manchester City"),
   ("as monaco", "AS Monaco"),
   ("monaco", "AS Monaco"),
   ("sl benfica", "SL Benfica"),
   ("benfica", "SL Benfica"),
   ("olympiacos fc", "Olympiacos FC"),
   ("olympiacos", "Olympiacos FC"),
   ("kairat almaty", "Kairat Almaty"),
   ("kairat almaty fc", "Kairat Almaty")]

/-- The alternatives of the suffix-stripping regexp
`\b(fc|cf|ud|club|de fútbol|de futbol)\b`, in alternation order.  Every
alternative begins and ends with a `\b` word character. -/
def suffixTokens : List (List Char) :=
  ["fc".data, "cf".data, "ud".data, "club".data, "de fútbol".data, "de futbol".data]

/-- At the current position (whose preceding character is already known to
be a non-word character), find the first alternative that matches and
whose end sits on a word boundary, returning the rest of the input after
it; alternatives are tried in order, as leftmost-first matching does. -/
def suffixTokenAt (l : List Char) : Option (List Char) :=
  go suffixTokens
where
  go : List (List Char) → Option (List Char)
    | [] => none
    | t :: ts =>
        if t.isPrefixOf l then
          let rest := l.drop t.length
          if rest = [] ∨ ¬wordChar (rest.headD ' ') then some rest else go ts
        else go ts

/-- `ReplaceAllString` for the suffix regexp: scan left to right, replace
each boundary-delimited alternative with the empty string, resume after
the match.  `prevWord` tracks whether the previous character of the
original string is a word character (false at the start); the fuel is the
remaining length, and at least one character is consumed per step. -/
def stripTokGo : Nat → Bool → List Char → List Char
  | 0, _, l => l
  | _ + 1, _, [] => []
  | fuel + 1, prevWord, c :: rest =>
      if ¬prevWord then
        match suffixTokenAt (c :: rest) with
        | some after => stripTokGo fuel true after
        | none => c :: stripTokGo fuel (wordChar c) rest
      else c :: stripTokGo fuel (wordChar c) rest

def stripSuffixTokens (l : List Char) : List Char := stripTokGo l.length false l

/-- The cleaning prefix of `normalizeTeamName`: lower-case, trim, strip
the suffix tokens, trim again. -/
def cleanTeamName (s : String) : List Char :=
  trimL (stripSuffixTokens (trimL (lowerL s.data)))

/-- `ReplaceAllString` for `\bvs\.?\b` -> `"vs"`.  Matching is
case-sensitive; the optional dot is taken greedily but given back when the
closing `\b` fails after it (backtracking semantics of leftmost-first
matching): `"vs."` before a word character is collapsed to `"vs"`, while
`"vs."` before a space or the end matches only its `"vs"` part, leaving
the dot in place. -/
def vsDotScan : Nat → Bool → List Char → List Char
  | 0, _, l => l
  | _ + 1, _, [] => []
  | fuel + 1, prevWord, c :: rest =>
      if c = 'v' ∧ ¬prevWord then
        match rest with
        | 's' :: rest2 =>
            match rest2 with
            | '.' :: rest3 =>
                if rest3 ≠ [] ∧ wordChar (rest3.headD ' ') then
                  'v' :: 's' :: vsDotScan fuel false rest3
                else
                  'v' :: 's' :: vsDotScan fuel true rest2
            | _ =>
                if rest2 = [] ∨ ¬wordChar (rest2.headD ' ') then
                  'v' :: 's' :: vsDotScan fuel true rest2
                else c :: vsDotScan fuel true rest
        | _ => c :: vsDotScan fuel (wordChar c) rest
      else c :: vsDotScan fuel (wordChar c) rest

/-- `ReplaceAllString` for `\bv\b` -> `"vs"`. -/
def vScan : Nat → Bool → List Char → List Char
  | 0, _, l => l
  | _ + 1, _, [] => []
  | fuel + 1, prevWord, c :: rest =>
      if c = 'v' ∧ ¬prevWord ∧ (rest = [] ∨ ¬wordChar (rest.headD ' ')) then
        'v' :: 's' :: vScan fuel true rest
      else c :: vScan fuel (wordChar c) rest

/-- The two `vs`-standardisation replacements applied in order. -/
def collapseVs (l : List Char) : List Char :=
  let c1 := vsDotScan l.length false l
  vScan c1.length false c1

/-- `normalizeDateTime`: trim, then the two `vs` replacements. -/
def normalizeDateTime (s : String) : String :=
  String.mk (collapseVs (trimL s.data))

/-- `strings.Split(_, "vs")`: split on every occurrence of the
(case-sensitive) two-character separator. -/
def splitVsAux : List Char → List Char → List (List Char)
  | acc, 'v' :: 's' :: rest => acc.reverse :: splitVsAux [] rest
  | acc, c :: rest => splitVsAux (c :: acc) rest
  | acc, [] => [acc.reverse]

def splitVs (l : List Char) : List (List Char) := splitVsAux [] l

/-! ### go-edlib similarity scores, in exact rational arithmetic

The scores are exact rational numbers in `[0, 1]`; they are represented as
unnormalized numerator/denominator pairs so that every arithmetic step is
plain natural-number arithmetic (denominators are always positive, and
every subtraction below is of a smaller value from a larger one, so
truncation never occurs).  Comparisons cross-multiply, hence decide the
comparison of the denoted rational values exactly. -/

/-- An unnormalized non-negative fraction `num / den`. -/
structure Frac where
  num : Nat
  den : Nat
deriving DecidableEq, Repr

def fOfNat (n : Nat) : Frac := ⟨n, 1⟩

def fAdd (a b : Frac) : Frac := ⟨a.num * b.den + b.num * a.den, a.den * b.den⟩

def fSub (a b : Frac) : Frac := ⟨a.num * b.den - b.num * a.den, a.den * b.den⟩

def fMul (a b : Frac) : Frac := ⟨a.num * b.num, a.den * b.den⟩

def fDiv (a b : Frac) : Frac := ⟨a.num * b.den, a.den * b.num⟩

/-- Exact `<` on the denoted rationals. -/
def fLt (a b : Frac) : Bool := a.num * b.den < b.num * a.den

/-- Exact `≥` on the denoted rationals. -/
def fGe (a b : Frac) : Bool := b.num * a.den ≤ a.num * b.den

/-- Inner step of the two-row Levenshtein recurrence: given the previous
row suffix, the diagonal value and the value to the left, produce the
rest of the next row. -/
def levNext (c : Char) : List Char → Nat → Nat → List Nat → List Nat
  | [], _, _, _ => []
  | bc :: bs, diag, left, oldRest =>
      let up := oldRest.headD 0
      let v := min (min (up + 1) (left + 1)) (diag + if c = bc then 0 else 1)
      v :: levNext c bs up v oldRest.tail

def levRowStep (b : List Char) (row : List Nat) (c : Char) : List Nat :=
  let first := row.headD 0 + 1
  first :: levNext c b (row.headD 0) first row.tail

/-- Levenshtein edit distance. -/
def levDist (a b : List Char) : Nat :=
  (a.foldl (levRowStep b) (List.range (b.length + 1))).getLastD 0

/-- `edlib.StringsSimilarity(_, _, Levenshtein)`:
`1 - distance / max length` (the degenerate empty-vs-empty division never
arises against the non-empty alias table). -/
def levSim (a b : List Char) : Frac :=
  let m := max a.length b.length
  if m = 0 then fOfNat 0
  else fSub (fOfNat 1) (fDiv (fOfNat (levDist a b)) (fOfNat m))

/-- First unmatched position of `c` in `b` within the Jaro window
(ascending scan, as the greedy matching phase does). -/
def jaroFindMatch (c : Char) (lo hi : Int) : List Char → List Bool → Nat → Option Nat
  | [], _, _ => none
  | bc :: bs, flags, j =>
      if ¬flags.headD false ∧ bc = c ∧ lo ≤ (j : Int) ∧ (j : Int) ≤ hi then some j
      else jaroFindMatch c lo hi bs flags.tail (j + 1)

/-- Matching phase of the Jaro similarity: returns the matched characters
of `a` in order together with the final match flags of `b`. -/
def jaroScanA (b : List Char) (window : Int) :
    List Char → Nat → List Bool → List Char × List Bool
  | [], _, flags => ([], flags)
  | ac :: arest, i, flags =>
      match jaroFindMatch ac ((i : Int) - window) ((i : Int) + window) b flags 0 with
      | some j =>
          let p := jaroScanA b window arest (i + 1) (flags.set j true)
          (ac :: p.1, p.2)
      | none => jaroScanA b window arest (i + 1) flags

/-- The matched characters of `b`, in order. -/
def jaroMatchedB : List Char → List Bool → List Char
  | [], _ => []
  | _ :: _, [] => []
  | bc :: bs, fl :: fls => if fl then bc :: jaroMatchedB bs fls else jaroMatchedB bs fls

/-- Jaro similarity with window `max(len)/2 - 1` and half-counted
transpositions: `(m/|a| + m/|b| + (m - t/2)/m) / 3`. -/
def jaro (a b : List Char) : Frac :=
  let la := a.length
  let lb := b.length
  if la = 0 ∨ lb = 0 then fOfNat 0
  else
    let window : Int := (max la lb : Int) / 2 - 1
    let p := jaroScanA b window a 0 (List.replicate lb false)
    let m := p.1.length
    if m = 0 then fOfNat 0
    else
      let t2 := (p.1.zip (jaroMatchedB b p.2)).countP fun q => q.1 != q.2
      fDiv
        (fAdd (fAdd (fDiv (fOfNat m) (fOfNat la)) (fDiv (fOfNat m) (fOfNat lb)))
          (fDiv (fSub (fOfNat m) (fDiv (fOfNat t2) (fOfNat 2))) (fOfNat m)))
        (fOfNat 3)

def commonPfxLen : List Char → List Char → Nat → Nat
  | a :: arest, b :: brest, cap + 1 => if a = b then 1 + commonPfxLen arest brest cap else 0
  | _, _, _ => 0

/-- Jaro-Winkler similarity: `jaro + prefix * 0.1 * (1 - jaro)` with the
common prefix capped at 4. -/
def jaroWinkler (a b : List Char) : Frac :=
  let j := jaro a b
  fAdd j (fMul (fMul (fOfNat (commonPfxLen a b 4)) ⟨1, 10⟩) (fSub (fOfNat 1) j))

/-- The best of the three scores computed per alias (the running-maximum
updates of `findBestSimilarTeam`). -/
def maxSim3 (a b : List Char) : Frac :=
  let lev := levSim a b
  let jr := jaro a b
  let jw := jaroWinkler a b
  let m1 := if fLt lev jr then jr else lev
  if fLt m1 jw then jw else m1

/-- The 0.70 acceptance threshold (`similarityThreshold`). -/
def simThreshold : Frac := ⟨7, 10⟩

/-- `findBestSimilarTeam`: scan the alias table keeping the strictly best
score at or above the threshold; return its canonical name, or `""` when
nothing reaches the threshold.  The table is iterated in source order
(Go map iteration order is arbitrary; every property proved below is
insensitive to the order). -/
def findBestSimilarTeam (name : List Char) : String :=
  let best := teamMappings.foldl
    (fun (best : Frac × String) p =>
      let sc := maxSim3 name p.1.data
      if fLt best.1 sc && fGe sc simThreshold then (sc, p.2) else best)
    (fOfNat 0, "")
  if fGe best.1 simThreshold then best.2 else ""

/-- `normalizeTeamName`: clean, exact table lookup, fuzzy fallback, and
finally `strings.Title` of the original input. -/
def normalizeTeamName (s : String) : String :=
  let cleaned := cleanTeamName s
  match teamMappings.lookup (String.mk cleaned) with
  | some v => v
  | none =>
      let bm := findBestSimilarTeam cleaned
      if bm ≠ "" then bm else String.mk (titleGo s.data)

/-- `normalizeEventName`: trim, collapse the `vs` variants, split on
`"vs"`; exactly two parts are normalized per team and rejoined, anything
else returns the cleaned string. -/
def normalizeEventName (s : String) : String :=
  let cleaned := collapseVs (trimL s.data)
  match splitVs cleaned with
  | [home, away] =>
      normalizeTeamName (String.mk (trimL home)) ++ " vs " ++
        normalizeTeamName (String.mk (trimL away))
  | _ => String.mk cleaned

/-- `NormalizeEvent`: date string and event name are normalized, link and
source are kept as is. -/
def NormalizeEvent (e : TicketEvent) : TicketEvent :=
  { dateTime := normalizeDateTime e.dateTime,
    event := normalizeEventName e.event,
    link := e.link,
    source := e.source }

/-- `NormalizeScrapingResult`: every event is normalized in place
(index-preserving), all metadata including `total` is copied. -/
def NormalizeScrapingResult (r : ScrapingResult) : ScrapingResult :=
  { events := r.events.map NormalizeEvent, total := r.total,
    timestamp := r.timestamp, sourceURL := r.sourceURL, source := r.source }

/-! ## Per-source scrapers

Fetching/rendering the page is an external collaborator (spec section 1);
each scraper takes the fetch outcome as `Option (List _)`: `none` when the
visit/render fails, `some elems` when the page was obtained, where each
element carries the attribute/text fields the selector callbacks read. -/

/-- The element-collection loop shared by the scrapers: parsed events are
appended, elements whose parse yields nothing are skipped. -/
def extractLoop (parse : α → Option TicketEvent) (elems : List α) : List TicketEvent :=
  elems.foldl
    (fun acc el =>
      match parse el with
      | some ev => acc ++ [ev]
      | none => acc) []

/-- A `li.performance` element of the hellotickets page: the link
attribute and the raw child texts. -/
structure HelloElem where
  linkAttr : String
  dateMonth : String
  day : String
  timeStr : String
  name : String
deriving DecidableEq, Repr

def helloBaseURL : String := "https://www.hellotickets.com"

def helloURL : String := "https://www.hellotickets.com/real-madrid-cf-tickets/p-598?qs=real%20mar"

/-- `parseTicketEvent`: an element lacking its link is dropped; a link
without an `http` scheme is prefixed with the base URL. -/
def helloParse (e : HelloElem) : Option TicketEvent :=
  if e.linkAttr = "" then none
  else
    some
      { dateTime :=
          String.mk (trimL e.dateMonth.data) ++ " " ++ String.mk (trimL e.day.data) ++ " " ++
            String.mk (trimL e.timeStr.data),
        event := String.mk (trimL e.name.data),
        link := if hasPfx "http".data e.linkAttr.data then e.linkAttr
                else helloBaseURL ++ e.linkAttr,
        source := "hellotickets" }

/-- `ScrapeRealMadridTickets`: a failed visit returns `nil` result plus an
error; otherwise the collected events with `Total` recomputed. -/
def helloScrape (ts : Nat) (fetch : Option (List HelloElem)) : Except String ScrapingResult :=
  match fetch with
  | none => .error "failed to visit URL"
  | some elems =>
      let evs := extractLoop helloParse elems
      .ok { events := evs, total := evs.length, timestamp := ts,
            sourceURL := helloURL, source := "hellotickets" }

/-- A `production-listing` element of the vividseats page. -/
structure VividElem where
  linkAttr : String
  day : String
  dateMonth : String
  timeStr : String
  name : String
deriving DecidableEq, Repr

def vividBaseURL : String := "https://www.vividseats.com"

def vividURL : String := "https://www.vividseats.com/real-madrid-tickets--sports-soccer/performer/3053"

def yearLiterals : List (List Char) :=
  ["2025".data, "2026".data, "2027".data, "2028".data, "2029".data, "2030".data]

/-- The scan of `formatDateWithYear`: indices from `len-4` down to `0`,
first window whose four characters form a plausible year wins. -/
def fdwyScan (dayPart : List Char) : Option (List Char × List Char) :=
  (List.range (dayPart.length - 3)).reverse.findSome? fun i =>
    let year := (dayPart.drop i).take 4
    if year ∈ yearLiterals then some (dayPart.take i, year) else none

/-- `formatDateWithYear`: split a concatenated day-year in the second
whitespace-separated field, e.g. `"Jan 182026"` to `"Jan 18 2026"`;
anything else is returned as is. -/
def formatDateWithYear (dateStr : List Char) : List Char :=
  match fieldsGo dateStr with
  | p0 :: p1 :: _ =>
      if p1.length ≥ 5 then
        match fdwyScan p1 with
        | some dy => p0 ++ ' ' :: (dy.1 ++ ' ' :: dy.2)
        | none => dateStr
      else dateStr
  | _ => dateStr

/-- `parseVividSeatsTicketEvent`. -/
def vividParse (e : VividElem) : Option TicketEvent :=
  if e.linkAttr = "" then none
  else
    some
      { dateTime :=
          String.mk (formatDateWithYear (trimL e.dateMonth.data)) ++ " " ++
            String.mk (trimL e.day.data) ++ " " ++ String.mk (trimL e.timeStr.data),
        event := String.mk (trimL e.name.data),
        link := if hasPfx "http".data e.linkAttr.data then e.linkAttr
                else vividBaseURL ++ e.linkAttr,
        source := "vividseats" }

/-- `ScrapeVividSeatsRealMadridTickets`. -/
def vividScrape (ts : Nat) (fetch : Option (List VividElem)) : Except String ScrapingResult :=
  match fetch with
  | none => .error "failed to visit URL"
  | some elems =>
      let evs := extractLoop vividParse elems
      .ok { events := evs, total := evs.length, timestamp := ts,
            sourceURL := vividURL, source := "vividseats" }

/-- An `a.match-row` element of the sport365 page. -/
structure SportElem where
  href : String
  date : String
  homeTeam : String
  awayTeam : String
deriving DecidableEq, Repr

def sportBaseURL : String := "https://www.sport365.com"

def sportURL : String := "https://www.sport365.com/football/team/real-madrid/1-1973#/fixtures"

/-- `parseSport365SelectionEvent`. -/
def sportParse (e : SportElem) : Option TicketEvent :=
  if e.href = "" then none
  else
    some
      { dateTime := String.mk (trimL e.date.data),
        event :=
          String.mk (trimL e.homeTeam.data) ++ " vs. " ++ String.mk (trimL e.awayTeam.data),
        link := if hasPfx "http".data e.href.data then e.href else sportBaseURL ++ e.href,
        source := "sport365" }

/-- `ScrapeSport365RealMadridMatches`: unlike the other two scrapers, a
ChromeDP/render failure returns the still-empty result value *together
with* the error (so its result pointer is never nil). -/
def sportScrape (ts : Nat) (fetch : Option (List SportElem)) :
    ScrapingResult × Option String :=
  match fetch with
  | none =>
      ({ events := [], total := 0, timestamp := ts, sourceURL := sportURL,
         source := "sport365" },
       some "failed to scrape with ChromeDP")
  | some elems =>
      let evs := extractLoop sportParse elems
      ({ events := evs, total := evs.length, timestamp := ts,
         sourceURL := sportURL, source := "sport365" },
       none)

/-! ## HTTP handler (`main.go`) -/

def exceptErr (r : Except String ScrapingResult) : Bool :=
  match r with
  | .error _ => true
  | .ok _ => false

/-- The `if helloResult != nil` / `if vividResult != nil` guards: a failed
hellotickets/vividseats scrape returned a nil result, contributing no
events. -/
def exceptEvents (r : Except String ScrapingResult) : List TicketEvent :=
  match r with
  | .ok res => res.events
  | .error _ => []

/-- The `source=all` aggregation of `handleScrape`: 500 only when all
three scrapes errored; otherwise the union of the non-nil results' events
(the sport365 result is always non-nil and is always appended), with
`Total` recomputed and the per-source errors dropped. -/
def combineAll (ts : Nat) (h v : Except String ScrapingResult)
    (sp : ScrapingResult × Option String) : Except String ScrapingResult :=
  if exceptErr h && exceptErr v && sp.2.isSome then
    .error "Failed to scrape from all sources"
  else
    let evs := exceptEvents h ++ exceptEvents v ++ sp.1.events
    .ok { events := evs, total := evs.length, timestamp := ts,
          sourceURL := "multiple_sources", source := "all" }

/-- The three HTTP outcomes `handleScrape` can produce. -/
inductive HttpResponse where
  | ok (r : ScrapingResult)
  | badRequest (msg : String)
  | serverError (msg : String)
deriving DecidableEq, Repr

/-- Query parameters of `GET /api/scrape`. -/
structure Params where
  source : String
  normalize : String
  filter : String
  dateFrom : String
  dateTo : String
deriving DecidableEq, Repr

/-- `time.Now().AddDate(-1, 0, 0)`, the default start of the date window. -/
def startDefault (now : GoTime) : GoTime := normDate { now with year := now.year - 1 }

/-- `time.Now().AddDate(2, 0, 0)`, the default end of the date window. -/
def endDefault (now : GoTime) : GoTime := normDate { now with year := now.year + 2 }

/-- `time.Parse("2006-01-02", _)` as used for the `from`/`to` parameters
(no year inference is applied on this path). -/
def parseISODate (s : String) : Option GoTime := fmtISO s.data

/-- The date-window block of `handleScrape`: skipped when both bounds are
empty; a malformed non-empty bound is a 400; a missing bound falls back to
its default. -/
def applyDateWindow (now : GoTime) (p : Params) (r : ScrapingResult) : HttpResponse :=
  if p.dateFrom = "" ∧ p.dateTo = "" then .ok r
  else
    match (if p.dateFrom = "" then some (startDefault now) else parseISODate p.dateFrom) with
    | none => .badRequest ("Invalid from date: " ++ p.dateFrom)
    | some sd =>
        match (if p.dateTo = "" then some (endDefault now) else parseISODate p.dateTo) with
        | none => .badRequest ("Invalid to date: " ++ p.dateTo)
        | some ed => .ok (FilterByDate now r sd ed)

/-- The post-scrape pipeline of `handleScrape`: optional normalization,
optional keyword filter, then the date window. -/
def scrapePipeline (now : GoTime) (p : Params) (r0 : ScrapingResult) : HttpResponse :=
  let r1 := if p.normalize = "true" then NormalizeScrapingResult r0 else r0
  let r2 := if p.filter ≠ "" then FilterByKeyword r1 p.filter else r1
  applyDateWindow now p r2

/-- `handleScrape`.  The second component records whether any scraping was
performed before the response was produced (the scrape calls sit inside
the source switch, ahead of all date validation).  `now` is the wall
clock, `ts` the abstract capture timestamp, `f1 f2 f3` the fetch outcomes
of the three sources. -/
def handleScrape (now : GoTime) (ts : Nat) (p : Params)
    (f1 : Option (List HelloElem)) (f2 : Option (List VividElem))
    (f3 : Option (List SportElem)) : HttpResponse × Bool :=
  let source := if p.source = "" then "hellotickets" else p.source
  if source = "hellotickets" then
    (match helloScrape ts f1 with
     | .error e => .serverError ("Scraping failed: " ++ e)
     | .ok r => scrapePipeline now p r, true)
  else if source = "vividseats" then
    (match vividScrape ts f2 with
     | .error e => .serverError ("Scraping failed: " ++ e)
     | .ok r => scrapePipeline now p r, true)
  else if source = "sport365" then
    (match sportScrape ts f3 with
     | (_, some e) => .serverError ("Scraping failed: " ++ e)
     | (r, none) => scrapePipeline now p r, true)
  else if source = "all" then
    (match combineAll ts (helloScrape ts f1) (vividScrape ts f2) (sportScrape ts f3) with
     | .error e => .serverError e
     | .ok r => scrapePipeline now p r, true)
  else
    (.badRequest "Invalid source. Use: hellotickets, vividseats, sport365, or all", false)

/-! ## File export (`SaveToFile`) -/

inductive SaveFormat where
  | json
  | table
deriving DecidableEq, Repr

/-- The format switch of `SaveToFile` (case-insensitive). -/
def saveFormatOf (format : String) : Option SaveFormat :=
  let f := String.mk (lowerL format.data)
  if f = "json" then some .json
  else if f = "table" ∨ f = "txt" then some .table
  else none

/-- `SaveToFile`: an unsupported format is an error produced before any
write; otherwise the `os.WriteFile` effect is returned as the triple of
file name, resolved format and the result being rendered (rendering
itself is pure display logic, out of scope per spec sections 1 and 4.4). -/
def SaveToFile (r : ScrapingResult) (filename format : String) :
    Except String (String × SaveFormat × ScrapingResult) :=
  match saveFormatOf format with
  | some f => .ok (filename, f, r)
  | none => .error ("unsupported format: " ++ format ++ " (supported: json, table, txt)")

/-! ## Derived views used in statements -/

/-- The events a hellotickets scrape contributes when it succeeds
(nothing when the fetch failed). -/
def helloFetchEvents : Option (List HelloElem) → List TicketEvent
  | none => []
  | some elems => extractLoop helloParse elems

/-- The events a vividseats scrape contributes when it succeeds. -/
def vividFetchEvents : Option (List VividElem) → List TicketEvent
  | none => []
  | some elems => extractLoop vividParse elems

/-- The events a sport365 scrape contributes when it succeeds. -/
def sportFetchEvents : Option (List SportElem) → List TicketEvent
  | none => []
  | some elems => extractLoop sportParse elems

/-! ## Helper lemmas -/

/-- The append-an-element-if loop used by both filters builds exactly
`List.filter`. -/
theorem foldl_filter_aux (p : α → Bool) (l : List α) (acc : List α) :
    l.foldl (fun acc e => if p e then acc ++ [e] else acc) acc = acc ++ l.filter p := by
  induction l generalizing acc with
  | nil => simp
  | cons a l ih => by_cases h : p a <;> simp [List.filter_cons, h, ih]

/-- The format loop returns the first format that parses, post-processed
by the year inference. -/
theorem tryFormats_eq_findSome (fs : List (List Char → Option GoTime)) (now : GoTime)
    (l : List Char) :
    tryFormats fs now l = (fs.findSome? fun f => f l).map (adjustYear now) := by
  induction fs with
  | nil => rfl
  | cons f rest ih =>
      cases hf : f l <;> simp [tryFormats, List.findSome?_cons, hf, ih]

/-- Date normalization never changes the year on the values reachable
here (a day overflow only rolls February into March). -/
theorem normDate_year (t : GoTime) : (normDate t).year = t.year := by
  unfold normDate; split <;> rfl

/-- The final validation step returns a time with exactly the year it was
given. -/
theorem year_of_finishDate {y mo d hh mi : Nat} {rest : List Char} {t : GoTime}
    (h : finishDate y mo d hh mi rest = some t) : t.year = y := by
  unfold finishDate at h
  split at h
  · cases h; rfl
  · cases h

/-! ## Claim theorems -/

/-- C1: for every `ScrapingResult` returned by any operation - a
per-source scrape, the all-sources merge, `NormalizeScrapingResult`,
`FilterByKeyword`, `FilterByDate` - the `total` field equals the length of
the `events` sequence.  The scrapes, the merge and `FilterByDate`
establish the invariant unconditionally; `NormalizeScrapingResult` (which
copies `total`) and `FilterByKeyword` (which returns its receiver on an
empty keyword) preserve it from their input. -/
theorem total_matches_event_count :
    (∀ ts f r, helloScrape ts f = .ok r → r.total = r.events.length)
    ∧ (∀ ts f r, vividScrape ts f = .ok r → r.total = r.events.length)
    ∧ (∀ ts f, (sportScrape ts f).1.total = (sportScrape ts f).1.events.length)
    ∧ (∀ ts h v sp r, combineAll ts h v sp = .ok r → r.total = r.events.length)
    ∧ (∀ r, r.total = r.events.length →
        (NormalizeScrapingResult r).total = (NormalizeScrapingResult r).events.length)
    ∧ (∀ r kw, r.total = r.events.length →
        (FilterByKeyword r kw).total = (FilterByKeyword r kw).events.length)
    ∧ (∀ now r sd ed, (FilterByDate now r sd ed).total = (FilterByDate now r sd ed).events.length) := by
  refine ⟨?_, ?_, ?_, ?_, ?_, ?_, ?_⟩
  · intro ts f r h
    cases f with
    | none => simp [helloScrape] at h
    | some elems =>
        simp only [helloScrape] at h
        cases h
        rfl
  · intro ts f r h
    cases f with
    | none => simp [vividScrape] at h
    | some elems =>
        simp only [vividScrape] at h
        cases h
        rfl
  · intro ts f
    cases f <;> rfl
  · intro ts h v sp r hr
    unfold combineAll at hr
    split at hr
    · cases hr
    · cases hr
      rfl
  · intro r h
    simpa [NormalizeScrapingResult] using h
  · intro r kw h
    by_cases hkw : kw = ""
    · simpa [FilterByKeyword, hkw] using h
    · simp [FilterByKeyword, hkw]
  · intro now r sd ed
    rfl

/-- C1 witness: the invariant instantiated at concrete inputs, with every
hypothesis discharged by evaluation. -/
theorem total_matches_event_count_witness :
    ((NormalizeScrapingResult ⟨[], 0, 1, "u", "s"⟩).total =
      (NormalizeScrapingResult ⟨[], 0, 1, "u", "s"⟩).events.length)
    ∧ ((FilterByKeyword ⟨[], 0, 1, "u", "s"⟩ "x").total =
      (FilterByKeyword ⟨[], 0, 1, "u", "s"⟩ "x").events.length)
    ∧ (({ events := [], total := 0, timestamp := 1, sourceURL := helloURL,
          source := "hellotickets" } : ScrapingResult).total =
        ({ events := [], total := 0, timestamp := 1, sourceURL := helloURL,
           source := "hellotickets" } : ScrapingResult).events.length) :=
  ⟨total_matches_event_count.2.2.2.2.1 _ rfl,
   total_matches_event_count.2.2.2.2.2.1 _ "x" rfl,
   total_matches_event_count.1 1 (some []) _ rfl⟩

/-- C3: `FilterByDate` keeps exactly the events whose date string parses
into the inclusive `[start, end]` range, plus every event whose date
string fails to parse (fail-open), for any range. -/
theorem FilterByDate_keeps_range_and_unparseable (now sd ed : GoTime) (r : ScrapingResult) :
    (FilterByDate now r sd ed).events = r.events.filter (dateKeeps now sd ed)
    ∧ ∀ e ∈ r.events, parseEventDate now e.dateTime = none →
        e ∈ (FilterByDate now r sd ed).events := by
  have hev : (FilterByDate now r sd ed).events = r.events.filter (dateKeeps now sd ed) := by
    simp [FilterByDate, foldl_filter_aux]
  refine ⟨hev, ?_⟩
  intro e he hnone
  rw [hev]
  exact List.mem_filter.mpr ⟨he, by simp [dateKeeps, hnone]⟩

/-- C3 witness: an event with an unparseable date string survives a date
window it certainly does not lie in. -/
theorem FilterByDate_keeps_range_and_unparseable_witness :
    (⟨"not a date", "E", "L", "S"⟩ : TicketEvent) ∈
      (FilterByDate ⟨2025, 1, 1, 0, 0⟩ ⟨[⟨"not a date", "E", "L", "S"⟩], 1, 0, "u", "s"⟩
        ⟨2030, 1, 1, 0, 0⟩ ⟨2030, 12, 31, 0, 0⟩).events :=
  (FilterByDate_keeps_range_and_unparseable ⟨2025, 1, 1, 0, 0⟩ ⟨2030, 1, 1, 0, 0⟩
      ⟨2030, 12, 31, 0, 0⟩ ⟨[⟨"not a date", "E", "L", "S"⟩], 1, 0, "u", "s"⟩).2
    _ (by simp) (by rfl)

/-- C9: `FilterByKeyword` is idempotent - filtering twice with the same
keyword returns the same result as filtering once - and an event passes
the filter exactly when the keyword is empty or is a case-insensitive
substring of its event name, date string or source. -/
theorem FilterByKeyword_idempotent (r : ScrapingResult) (kw : String) :
    FilterByKeyword (FilterByKeyword r kw) kw = FilterByKeyword r kw
    ∧ ∀ e, e ∈ (FilterByKeyword r kw).events ↔
        e ∈ r.events ∧ (kw = "" ∨ keywordMatches (lowerL kw.data) e = true) := by
  by_cases hkw : kw = ""
  · subst hkw
    exact ⟨by simp [FilterByKeyword], fun e => by simp [FilterByKeyword]⟩
  · constructor
    · simp [FilterByKeyword, hkw, foldl_filter_aux, List.filter_filter]
    · intro e
      simp [FilterByKeyword, hkw, foldl_filter_aux, List.mem_filter]

/-- C10: normalization is a frame for `link` and `source` (only
`dateTime` and `event` may change), and `NormalizeScrapingResult` maps the
events pointwise, preserving their number and order. -/
theorem NormalizeScrapingResult_frame (e : TicketEvent) (r : ScrapingResult) :
    (NormalizeEvent e).link = e.link
    ∧ (NormalizeEvent e).source = e.source
    ∧ (NormalizeScrapingResult r).events = r.events.map NormalizeEvent
    ∧ (NormalizeScrapingResult r).events.length = r.events.length :=
  ⟨rfl, rfl, rfl, by simp [NormalizeScrapingResult]⟩

/-- C2: `parseEventDate` tries the fixed ordered list of nine layouts and
returns the result of the first one that parses the whole input (the
`findSome?` over `goFormats`); every layout that omits a year parses to
the default year 0, and the year-inference step then assigns the current
year, or the next year when the parsed month/day has already passed in
the current year (same-day counts as not passed). -/
theorem parseEventDate_ordered_formats (now : GoTime) (s : String) :
    parseEventDate now s = ((goFormats.findSome? fun f => f s.data).map (adjustYear now))
    ∧ (∀ f ∈ yearlessFormats, ∀ l t, f l = some t → t.year = 0)
    ∧ (∀ t : GoTime, t.year = 0 →
        (adjustYear now t).year = if monthDayPassed now t then now.year + 1 else now.year) := by
  refine ⟨tryFormats_eq_findSome goFormats now s.data, ?_, ?_⟩
  · intro f hf l t h
    simp only [yearlessFormats, List.mem_cons, List.not_mem_nil, or_false] at hf
    rcases hf with rfl | rfl | rfl | rfl
    · simp only [fmtDayMonWkClock, bind, Option.bind_eq_some, Prod.exists] at h
      obtain ⟨d, l1, -, l2, -, mo, l3, -, l4, -, l5, -, l6, -, hh, mi, l7, -, h⟩ := h
      exact year_of_finishDate h
    · simp only [fmtMonDayWkClock, bind, Option.bind_eq_some, Prod.exists] at h
      obtain ⟨mo, l1, -, l2, -, d, l3, -, l4, -, l5, -, l6, -, hh, mi, l7, -, h⟩ := h
      exact year_of_finishDate h
    · simp only [fmtDayMon, bind, Option.bind_eq_some, Prod.exists] at h
      obtain ⟨d, l1, -, l2, -, mo, l3, -, h⟩ := h
      exact year_of_finishDate h
    · simp only [fmtMonDay, bind, Option.bind_eq_some, Prod.exists] at h
      obtain ⟨mo, l1, -, l2, -, d, l3, -, h⟩ := h
      exact year_of_finishDate h
  · intro t ht
    unfold adjustYear
    rw [if_pos ht, normDate_year]

/-- C2 witness: `"27 Sep"` (a yearless layout) parsed on 2025-10-11 -
September 27 has passed, so the inferred year is 2026. -/
theorem parseEventDate_ordered_formats_witness :
    parseEventDate ⟨2025, 10, 11, 12, 0⟩ "27 Sep" = some ⟨2026, 9, 27, 0, 0⟩
    ∧ (⟨0, 9, 27, 0, 0⟩ : GoTime).year = 0
    ∧ (adjustYear ⟨2025, 10, 11, 12, 0⟩ ⟨0, 9, 27, 0, 0⟩).year = 2026 := by
  refine ⟨rfl, ?_, ?_⟩
  · exact (parseEventDate_ordered_formats ⟨2025, 10, 11, 12, 0⟩ "27 Sep").2.1 fmtDayMon
      (by simp [yearlessFormats]) "27 Sep".data ⟨0, 9, 27, 0, 0⟩ rfl
  · have h := (parseEventDate_ordered_formats ⟨2025, 10, 11, 12, 0⟩ "27 Sep").2.2
      ⟨0, 9, 27, 0, 0⟩ rfl
    have hmp : monthDayPassed ⟨2025, 10, 11, 12, 0⟩ ⟨0, 9, 27, 0, 0⟩ = true := rfl
    rw [hmp] at h
    simpa using h

/-- C4: the `source=all` aggregation errors (a 500) exactly when all three
per-source scrapes fail; otherwise it returns a result whose events are
the concatenation of the successful sources' events (a failed source
contributes nothing), and the individual source errors appear nowhere in
the returned result. -/
theorem scrapeAll_partial_failure (ts : Nat) (f1 : Option (List HelloElem))
    (f2 : Option (List VividElem)) (f3 : Option (List SportElem)) :
    ((∃ msg, combineAll ts (helloScrape ts f1) (vividScrape ts f2) (sportScrape ts f3) =
        .error msg) ↔ f1 = none ∧ f2 = none ∧ f3 = none)
    ∧ ∀ r, combineAll ts (helloScrape ts f1) (vividScrape ts f2) (sportScrape ts f3) = .ok r →
        r.events = helloFetchEvents f1 ++ vividFetchEvents f2 ++ sportFetchEvents f3 := by
  cases f1 <;> cases f2 <;> cases f3 <;>
    constructor <;>
      simp [combineAll, helloScrape, vividScrape, sportScrape, exceptErr, exceptEvents,
        helloFetchEvents, vividFetchEvents, sportFetchEvents]

/-- C4 witness: one succeeding source (hellotickets, with an empty page)
and two failing ones - the merge succeeds and carries exactly the
successful source's events. -/
theorem scrapeAll_partial_failure_witness :
    ({ events := [], total := 0, timestamp := 4, sourceURL := "multiple_sources",
       source := "all" } : ScrapingResult).events =
      helloFetchEvents (some []) ++ vividFetchEvents none ++ sportFetchEvents none :=
  (scrapeAll_partial_failure 4 (some []) none none).2 _ rfl

/-- C5 counterexample: with a valid source, a successful (empty) scrape
and a malformed `from` date, the handler does reject with a 400 - but the
`Bool` effect flag records that the scrape was already performed before
the rejection (the date parameters are only validated after the source
switch has scraped, normalized and keyword-filtered).  This refutes the
claim that no partial work is performed before a malformed `from`/`to`
date is rejected. -/
theorem handleScrape_work_before_date_rejection :
    handleScrape ⟨2025, 10, 11, 12, 0⟩ 0 ⟨"hellotickets", "", "", "bad-date", ""⟩
      (some []) none none =
      (.badRequest "Invalid from date: bad-date", true) := by
  rfl

/-- C5 (amended): an unknown source is rejected with a 400 before any
scraping; a malformed `from`/`to` date and an unsupported export format
are rejected synchronously with a client-facing error (and no file is
written for an unsupported format) - but the malformed-date rejection
happens only after the requested scraping has already been performed. -/
theorem badInput_synchronous_rejection :
    (∀ now ts p f1 f2 f3, p.source ≠ "" → p.source ≠ "hellotickets" →
      p.source ≠ "vividseats" → p.source ≠ "sport365" → p.source ≠ "all" →
      handleScrape now ts p f1 f2 f3 =
        (.badRequest "Invalid source. Use: hellotickets, vividseats, sport365, or all", false))
    ∧ (∀ now ts p l1 l2 l3,
        (p.source = "" ∨ p.source = "hellotickets" ∨ p.source = "vividseats" ∨
          p.source = "sport365" ∨ p.source = "all") →
        p.dateFrom ≠ "" → parseISODate p.dateFrom = none →
        handleScrape now ts p (some l1) (some l2) (some l3) =
          (.badRequest ("Invalid from date: " ++ p.dateFrom), true))
    ∧ (∀ now ts p l1 l2 l3,
        (p.source = "" ∨ p.source = "hellotickets" ∨ p.source = "vividseats" ∨
          p.source = "sport365" ∨ p.source = "all") →
        p.dateFrom = "" → p.dateTo ≠ "" → parseISODate p.dateTo = none →
        handleScrape now ts p (some l1) (some l2) (some l3) =
          (.badRequest ("Invalid to date: " ++ p.dateTo), true))
    ∧ (∀ r fn fmt, saveFormatOf fmt = none →
        SaveToFile r fn fmt =
          .error ("unsupported format: " ++ fmt ++ " (supported: json, table, txt)")) := by
  refine ⟨?_, ?_, ?_, ?_⟩
  · intro now ts p f1 f2 f3 h0 h1 h2 h3 h4
    simp [handleScrape, h0, h1, h2, h3, h4]
  · intro now ts p l1 l2 l3 hsrc hfrom hpar
    rcases hsrc with h | h | h | h | h <;>
      simp [handleScrape, h, helloScrape, vividScrape, sportScrape, combineAll,
        exceptErr, exceptEvents, scrapePipeline, applyDateWindow, hfrom, hpar]
  · intro now ts p l1 l2 l3 hsrc hfrom hto hpar
    rcases hsrc with h | h | h | h | h <;>
      simp [handleScrape, h, helloScrape, vividScrape, sportScrape, combineAll,
        exceptErr, exceptEvents, scrapePipeline, applyDateWindow, hfrom, hto, hpar]
  · intro r fn fmt h
    simp [SaveToFile, h]

/-- C5 witness: every amended branch exercised on concrete inputs. -/
theorem badInput_synchronous_rejection_witness :
    handleScrape ⟨2025, 1, 1, 0, 0⟩ 2 ⟨"unknown-source", "", "", "", ""⟩ none none none =
      (.badRequest "Invalid source. Use: hellotickets, vividseats, sport365, or all", false)
    ∧ handleScrape ⟨2025, 1, 1, 0, 0⟩ 2 ⟨"vividseats", "", "", "2025-13-40", ""⟩
        (some []) (some []) (some []) =
      (.badRequest "Invalid from date: 2025-13-40", true)
    ∧ handleScrape ⟨2025, 1, 1, 0, 0⟩ 2 ⟨"", "", "", "", "not-iso"⟩
        (some []) (some []) (some []) =
      (.badRequest "Invalid to date: not-iso", true)
    ∧ SaveToFile ⟨[], 0, 0, "u", "s"⟩ "out" "xml" =
      .error "unsupported format: xml (supported: json, table, txt)" := by
  refine ⟨?_, ?_, ?_, ?_⟩
  · exact badInput_synchronous_rejection.1 ⟨2025, 1, 1, 0, 0⟩ 2 _ none none none
      (by decide) (by decide) (by decide) (by decide) (by decide)
  · exact (badInput_synchronous_rejection.2.1 ⟨2025, 1, 1, 0, 0⟩ 2
      ⟨"vividseats", "", "", "2025-13-40", ""⟩ [] [] []
      (Or.inr (Or.inr (Or.inl rfl))) (by decide) rfl).trans (by decide)
  · exact (badInput_synchronous_rejection.2.2.1 ⟨2025, 1, 1, 0, 0⟩ 2
      ⟨"", "", "", "", "not-iso"⟩ [] [] []
      (Or.inl rfl) rfl (by decide) rfl).trans (by decide)
  · exact (badInput_synchronous_rejection.2.2.2 ⟨[], 0, 0, "u", "s"⟩ "out" "xml"
      rfl).trans (by rfl)

/-- An exact cross-multiplication fact: a score strictly below the
threshold does not pass the `>=` acceptance test. -/
theorem fGe_false_of_fLt {a b : Frac} (h : fLt a b = true) : fGe a b = false := by
  simp [fLt] at h
  simp [fGe]
  omega

/-- When every alias scores strictly below the threshold, the
best-candidate fold never updates its accumulator. -/
theorem findBest_fold_const (name : List Char) (L : List (String × String))
    (acc : Frac × String)
    (h : ∀ p ∈ L, fLt (maxSim3 name p.1.data) simThreshold = true) :
    L.foldl
      (fun (best : Frac × String) p =>
        let sc := maxSim3 name p.1.data
        if fLt best.1 sc && fGe sc simThreshold then (sc, p.2) else best) acc = acc := by
  induction L generalizing acc with
  | nil => rfl
  | cons q L ih =>
      have hq := fGe_false_of_fLt (h q (List.mem_cons_self q L))
      have hrest : ∀ p ∈ L, fLt (maxSim3 name p.1.data) simThreshold = true :=
        fun p hp => h p (List.mem_cons_of_mem q hp)
      simp only [List.foldl_cons, hq, Bool.and_false, if_neg Bool.false_ne_true]
      exact ih acc hrest

/-- When no alias reaches the threshold, `findBestSimilarTeam` reports no
match. -/
theorem findBest_below_threshold (name : List Char)
    (h : ∀ p ∈ teamMappings, fLt (maxSim3 name p.1.data) simThreshold = true) :
    findBestSimilarTeam name = "" := by
  unfold findBestSimilarTeam
  rw [findBest_fold_const name teamMappings (fOfNat 0, "") h]
  rfl

/-- C6: `normalizeTeamName` lower-cases and cleans its input and returns
the alias table's canonical name on an exact hit; in particular
`"Real Madrid CF"` and `"madrid"` both normalize to `"Real Madrid"`, and
`"FC Barcelona"` to `"Barcelona"`. -/
theorem normalizeTeamName_exact_lookup (s v : String) :
    (teamMappings.lookup (String.mk (cleanTeamName s)) = some v → normalizeTeamName s = v)
    ∧ normalizeTeamName "Real Madrid CF" = "Real Madrid"
    ∧ normalizeTeamName "madrid" = "Real Madrid"
    ∧ normalizeTeamName "FC Barcelona" = "Barcelona" := by
  refine ⟨?_, rfl, rfl, rfl⟩
  intro h
  simp [normalizeTeamName, h]

/-- C6 witness: the exact-hit branch applied at `"madrid"`. -/
theorem normalizeTeamName_exact_lookup_witness :
    teamMappings.lookup (String.mk (cleanTeamName "madrid")) = some "Real Madrid"
    ∧ normalizeTeamName "madrid" = "Real Madrid" :=
  ⟨rfl, (normalizeTeamName_exact_lookup "madrid" "Real Madrid").1 rfl⟩

/-- C7: when the cleaned input has no exact alias hit and no alias's best
of the three similarity scores reaches the 0.70 threshold,
`normalizeTeamName` returns the original input title-cased rather than a
table entry. -/
theorem normalizeTeamName_titlecase_fallback (s : String) :
    teamMappings.lookup (String.mk (cleanTeamName s)) = none →
    (∀ p ∈ teamMappings, fLt (maxSim3 (cleanTeamName s) p.1.data) simThreshold = true) →
    normalizeTeamName s = String.mk (titleGo s.data) := by
  intro h1 h2
  simp [normalizeTeamName, h1, findBest_below_threshold _ h2]

/-- C7 witness: `"Zzyxx United"` misses the table, every alias scores
below 0.70, and the result is the title-cased original. -/
theorem normalizeTeamName_titlecase_fallback_witness :
    normalizeTeamName "Zzyxx United" = "Zzyxx United" :=
  (normalizeTeamName_titlecase_fallback "Zzyxx United" (by decide) (by decide)).trans
    (by rfl)

/-- C8 counterexample.  First conjunct: on `"a v b v c"` the split yields
three parts, and the function returns the cleaned string
`"a vs b vs c"`, not the input unchanged - refuting the claim as stated.
Second conjunct: an upper-case `"VS"` separator is not split on (the
token match is case-sensitive); under the claimed case-insensitive
splitting the two canonical team names would have been rejoined as
`"Real Madrid vs Barcelona"`. -/
theorem normalizeEventName_not_case_insensitive :
    normalizeEventName "a v b v c" ≠ "a v b v c"
    ∧ normalizeEventName "Real Madrid VS Barcelona" = "Real Madrid VS Barcelona" :=
  ⟨by decide, rfl⟩

/-- C8 (amended): `normalizeEventName` splits on a case-sensitive `"vs"`
token after collapsing the `"vs."` and standalone-`"v"` variants; when
the split does not yield exactly two parts it returns the cleaned
(trimmed, collapsed) string; `"Real Madrid vs. Barcelona"` normalizes to
`"Real Madrid vs Barcelona"` (via fuzzy-matching the leftover
`". Barcelona"` part back to `"Barcelona"`). -/
theorem normalizeEventName_split_behavior (s : String) :
    ((splitVs (collapseVs (trimL s.data))).length ≠ 2 →
      normalizeEventName s = String.mk (collapseVs (trimL s.data)))
    ∧ normalizeEventName "Real Madrid vs. Barcelona" = "Real Madrid vs Barcelona" := by
  constructor
  · intro h
    simp only [normalizeEventName]
    cases hsp : splitVs (collapseVs (trimL s.data)) with
    | nil => rfl
    | cons a t =>
        cases t with
        | nil => rfl
        | cons b t2 =>
            cases t2 with
            | nil => simp [hsp] at h
            | cons c t3 => rfl
  · decide

/-- C8 witness: a three-part input is returned cleaned (and unequal
inputs of the hypothesis are discharged by evaluation). -/
theorem normalizeEventName_split_behavior_witness :
    (splitVs (collapseVs (trimL "x vs y vs z".data))).length ≠ 2
    ∧ normalizeEventName "x vs y vs z" = "x vs y vs z" :=
  ⟨by decide,
   ((normalizeEventName_split_behavior "x vs y vs z").1 (by decide)).trans (by rfl)⟩
